import Mathlib

/-!
Shallow embedding of the NYC Rent Map derived-statistics engine
(src/js/data.js, src/js/app.js, src/js/map.js).

JavaScript numbers are modelled as rationals (`ℚ`); the integer color-scale
breakpoints as `ℤ` (cast to `ℚ` where the code compares them against rents).
A JavaScript `null`/`undefined` rent is `Option.none`.  The JS idiom
`x || null` (which turns the falsy value `0` into `null`) is modelled by
`orNull`.  Object-keyed tables are association lists in iteration order, and
key lookup is `List.lookup`.
-/

namespace NYCRentMap

/-- `DataUtils.colorScale.colors` (src/js/data.js line 15). -/
def colorScaleColors : List String :=
  ["#f7fbff", "#deebf7", "#c6dbef", "#9ecae1",
   "#6baed6", "#4292c6", "#2171b5", "#084594"]

/-- `DataUtils.colorScale.breaks` (src/js/data.js line 17). -/
def colorScaleBreaks : List ℤ := [1500, 2000, 2500, 3000, 3500, 4000, 4500, 5000]

/-- The loop body of `getColor`: walk the (break, color) pairs and return the
color of the first breakpoint strictly greater than the rent. -/
def findBucket (r : ℚ) : List (ℤ × String) → Option String
  | [] => none
  | (b, c) :: rest => if r < (b : ℚ) then some c else findBucket r rest

/-- `DataUtils.getColor` (src/js/data.js lines 23-34). -/
def getColor (rent : Option ℚ) : String :=
  match rent with
  | none => "#cccccc"
  | some r =>
      (findBucket r (colorScaleBreaks.zip colorScaleColors)).getD
        (colorScaleColors.getLastD "")

/-- JavaScript `Math.round` (round half toward positive infinity). -/
def jsRound (q : ℚ) : ℤ := ⌊q + 1 / 2⌋

/-- Insert a comma after every three characters of a reversed digit list
(the grouping behaviour of `Number.prototype.toLocaleString` for integers). -/
def groupRev : List Char → List Char
  | a :: b :: c :: d :: rest => a :: b :: c :: ',' :: groupRev (d :: rest)
  | l => l

/-- `Number.prototype.toLocaleString` restricted to integers: decimal digits
with comma thousands separators. -/
def toLocaleString (n : ℤ) : String :=
  (if n < 0 then "-" else "") ++
    String.mk ((groupRev (Nat.repr n.natAbs).data.reverse).reverse)

/-- `DataUtils.formatRent` (src/js/data.js lines 39-44). -/
def formatRent (rent : Option ℚ) : String :=
  match rent with
  | none => "No data"
  | some r => "$" ++ toLocaleString (jsRound r)

/-- JavaScript `Number.prototype.toFixed(1)`: round to one decimal place,
ties toward the larger value. -/
def toFixed1 (q : ℚ) : String :=
  let n := (⌊q * 10 + 1 / 2⌋ : ℤ).natAbs
  (if q < 0 then "-" else "") ++ Nat.repr (n / 10) ++ "." ++ Nat.repr (n % 10)

/-- `DataUtils.formatPercentChange` (src/js/data.js lines 154-160). -/
def formatPercentChange (percent : Option ℚ) : String :=
  match percent with
  | none => "N/A"
  | some p => (if 0 ≤ p then "+" else "") ++ toFixed1 p ++ "%"

/-- `DataUtils.getPercentChange` (src/js/data.js lines 144-149). -/
def getPercentChange (startRent endRent : Option ℚ) : Option ℚ :=
  match startRent, endRent with
  | some s, some e => if s = 0 then none else some ((e - s) / s * 100)
  | _, _ => none

/-- A per-ZIP monthly series: date string keyed rents, in iteration order. -/
abbrev ZipSeries := List (String × ℚ)

/-- The `{ zipcode: { date: rent } }` table, in iteration order. -/
abbrev RentTable := List (String × ZipSeries)

/-- The mutable fields of `DataUtils` (src/js/data.js lines 8-11). -/
structure DataStore where
  timeSeries : Option RentTable
  availableDates : List String
  startDateIndex : ℤ
  endDateIndex : ℤ
deriving DecidableEq

/-- JavaScript `array[i] || ''` on a string array: the element when the index
is in range (an empty stored string also yields `''`), otherwise `''`. -/
def dateAt (dates : List String) (i : ℤ) : String :=
  if 0 ≤ i then dates.getD i.toNat "" else ""

/-- `DataUtils.getStartDate` (src/js/data.js lines 108-110). -/
def getStartDate (s : DataStore) : String := dateAt s.availableDates s.startDateIndex

/-- `DataUtils.getEndDate` (src/js/data.js lines 115-117). -/
def getEndDate (s : DataStore) : String := dateAt s.availableDates s.endDateIndex

/-- The JS idiom `value || null`: a stored `0` is falsy and becomes `null`. -/
def orNull (o : Option ℚ) : Option ℚ :=
  match o with
  | some v => if v = 0 then none else some v
  | none => none

/-- `DataUtils.getStartRentForZip` (src/js/data.js lines 122-128). -/
def getStartRentForZip (s : DataStore) (zipcode : String) : Option ℚ :=
  match s.timeSeries with
  | none => none
  | some t =>
      match t.lookup zipcode with
      | none => none
      | some zipSeries => orNull (zipSeries.lookup (getStartDate s))

/-- `DataUtils.getEndRentForZip` (src/js/data.js lines 133-139). -/
def getEndRentForZip (s : DataStore) (zipcode : String) : Option ℚ :=
  match s.timeSeries with
  | none => none
  | some t =>
      match t.lookup zipcode with
      | none => none
      | some zipSeries => orNull (zipSeries.lookup (getEndDate s))

/-- Result record of `getNYCAggregateData`; `zipCount` is `none` on the
not-loaded branch, where the JS object omits the field. -/
structure AggregateResult where
  startRent : Option ℚ
  endRent : Option ℚ
  percentChange : Option ℚ
  zipCount : Option ℕ
deriving DecidableEq

/-- One iteration of the accumulation loop of `getNYCAggregateData`
(src/js/data.js lines 174-183). -/
def aggStep (s : DataStore) (acc : ℚ × ℚ × ℕ) (zipcode : String) : ℚ × ℚ × ℕ :=
  match getStartRentForZip s zipcode, getEndRentForZip s zipcode with
  | some sr, some er => (acc.1 + sr, acc.2.1 + er, acc.2.2 + 1)
  | _, _ => acc

/-- `DataUtils.getNYCAggregateData` (src/js/data.js lines 165-199). -/
def getNYCAggregateData (s : DataStore) : AggregateResult :=
  match s.timeSeries with
  | none => ⟨none, none, none, none⟩
  | some t =>
      let r := (t.map Prod.fst).foldl (aggStep s) (0, 0, 0)
      if r.2.2 = 0 then ⟨none, none, none, some 0⟩
      else
        let avgStartRent := r.1 / (r.2.2 : ℚ)
        let avgEndRent := r.2.1 / (r.2.2 : ℚ)
        ⟨some avgStartRent, some avgEndRent,
          getPercentChange (some avgStartRent) (some avgEndRent), some r.2.2⟩

/-- An entry of the `changes` array of `getTop10ByChange`
(src/js/data.js lines 217-221). -/
structure ChangeEntry where
  zipcode : String
  percentChange : ℚ
  absChange : ℚ
deriving DecidableEq

/-- The ordering used by `changes.sort((a, b) => b.absChange - a.absChange)`:
descending by absolute change, equal keys kept in original order
(JavaScript `Array.prototype.sort` is stable). -/
def changeDesc (a b : ChangeEntry) : Bool := decide (b.absChange ≤ a.absChange)

/-- The `changes` array built by `getTop10ByChange` before sorting
(src/js/data.js lines 209-223). -/
def changesFor (s : DataStore) (t : RentTable) : List ChangeEntry :=
  (t.map Prod.fst).filterMap fun z =>
    match getPercentChange (getStartRentForZip s z) (getEndRentForZip s z) with
    | some pc => some ⟨z, pc, |pc|⟩
    | none => none

/-- `DataUtils.getTop10ByChange` (src/js/data.js lines 204-230). -/
def getTop10ByChange (s : DataStore) : List ChangeEntry :=
  match s.timeSeries with
  | none => []
  | some t => ((changesFor s t).mergeSort changeDesc).take 10

/-- One legend entry of `getLegendItems`. -/
structure LegendItem where
  color : String
  label : String
deriving DecidableEq

/-- `DataUtils.getLegendItems` (src/js/data.js lines 235-261). -/
def getLegendItems : List LegendItem :=
  ((List.range colorScaleColors.length).map fun i =>
    { color := colorScaleColors.getD i "",
      label :=
        if i = 0 then
          "< $" ++ toLocaleString (colorScaleBreaks.getD 0 0)
        else if i = colorScaleColors.length - 1 then
          "$" ++ toLocaleString (colorScaleBreaks.getD (i - 1) 0) ++ "+"
        else
          "$" ++ toLocaleString (colorScaleBreaks.getD (i - 1) 0) ++ " - $" ++
            toLocaleString (colorScaleBreaks.getD i 0) })
  ++ [{ color := "#cccccc", label := "No data" }]

/-- The parsed JSON payload consumed by `loadTimeSeries`; either field may be
missing from a malformed payload. -/
structure TimeSeriesPayload where
  data : Option RentTable
  dates : Option (List String)
deriving DecidableEq

/-- `DataUtils.loadTimeSeries` (src/js/data.js lines 87-103).  `response = none`
models an unreachable payload (fetch or JSON parse throws).  A payload without
a `dates` array throws at `this.availableDates.length` after `timeSeries` was
already assigned (the JS also leaves `availableDates` as `undefined`, a state
with no counterpart in this model and unobserved by the claim); the `catch`
turns both failures into `false`. -/
def loadTimeSeries (response : Option TimeSeriesPayload) (s : DataStore) :
    Bool × DataStore :=
  match response with
  | none => (false, s)
  | some payload =>
      match payload.dates with
      | none => (false, { s with timeSeries := payload.data })
      | some ds =>
          (true,
            { timeSeries := payload.data, availableDates := ds,
              startDateIndex := 0, endDateIndex := (ds.length : ℤ) - 1 })

/-- The `input` handler of the start slider (src/js/app.js lines 88-101):
a start value that would exceed the current end is replaced by the end. -/
def handleStartSliderInput (s : DataStore) (value : ℤ) : DataStore :=
  { s with startDateIndex := if value > s.endDateIndex then s.endDateIndex else value }

/-- The `input` handler of the end slider (src/js/app.js lines 104-117):
an end value that would go below the current start is replaced by the start. -/
def handleEndSliderInput (s : DataStore) (value : ℤ) : DataStore :=
  { s with endDateIndex := if value < s.startDateIndex then s.startDateIndex else value }

/-! ### Helper lemmas -/

/-- A successful association-list lookup returns a stored binding. -/
theorem lookup_mem {α β : Type} [BEq α] [LawfulBEq α] {l : List (α × β)} {k : α}
    {v : β} (h : l.lookup k = some v) : (k, v) ∈ l := by
  induction l with
  | nil => simp [List.lookup] at h
  | cons p rest ih =>
      obtain ⟨a, b⟩ := p
      rw [List.lookup] at h
      by_cases hk : k == a
      · simp only [hk] at h
        obtain rfl : b = v := by cases h; rfl
        have : k = a := by simpa using hk
        subst this
        exact List.mem_cons_self _ _
      · simp only [Bool.not_eq_true] at hk
        simp only [hk] at h
        exact List.mem_cons_of_mem _ (ih h)

/-- `getColor` on a present rent, unfolded to the nested conditional the
source loop computes. -/
theorem getColor_some_eq (r : ℚ) :
    getColor (some r) =
      if r < 1500 then "#f7fbff"
      else if r < 2000 then "#deebf7"
      else if r < 2500 then "#c6dbef"
      else if r < 3000 then "#9ecae1"
      else if r < 3500 then "#6baed6"
      else if r < 4000 then "#4292c6"
      else if r < 4500 then "#2171b5"
      else "#084594" := by
  show (findBucket r (colorScaleBreaks.zip colorScaleColors)).getD
      (colorScaleColors.getLastD "") = _
  simp only [colorScaleBreaks, colorScaleColors, List.zip_cons_cons,
    List.zip_nil_right, findBucket]
  push_cast
  split_ifs <;> simp_all <;> linarith

/-! ### C1: percent change -/

/-- Claim C1: `getPercentChange` returns `none` iff the start rent is absent,
the end rent is absent, or the start rent is 0; otherwise it returns exactly
`(endRent - startRent) / startRent * 100`, which (for the non-negative rents
of the data model) is positive exactly when rent increased. -/
theorem getPercentChange_spec (startRent endRent : Option ℚ) :
    (getPercentChange startRent endRent = none ↔
      startRent = none ∨ endRent = none ∨ startRent = some 0) ∧
    (∀ s e : ℚ, startRent = some s → endRent = some e → s ≠ 0 →
      getPercentChange startRent endRent = some ((e - s) / s * 100)) ∧
    (∀ s e p : ℚ, startRent = some s → endRent = some e → 0 ≤ s →
      getPercentChange startRent endRent = some p → (0 < p ↔ s < e)) := by
  refine ⟨?_, ?_, ?_⟩
  · cases startRent with
    | none => simp [getPercentChange]
    | some s =>
        cases endRent with
        | none => simp [getPercentChange]
        | some e =>
            by_cases hs : s = 0 <;> simp [getPercentChange, hs]
  · rintro s e rfl rfl hs
    simp [getPercentChange, hs]
  · rintro s e p rfl rfl hs hp
    by_cases h0 : s = 0
    · simp [getPercentChange, h0] at hp
    · have hspos : 0 < s := lt_of_le_of_ne hs (Ne.symm h0)
      simp only [getPercentChange, if_neg h0, Option.some.injEq] at hp
      subst hp
      constructor
      · intro hgt
        by_contra hle
        push_neg at hle
        have hnum : e - s ≤ 0 := by linarith
        have : (e - s) / s * 100 ≤ 0 := by
          have hdiv : (e - s) / s ≤ 0 := div_nonpos_of_nonpos_of_nonneg hnum hs
          linarith
        linarith
      · intro hlt
        have hnum : 0 < e - s := by linarith
        have hdiv : 0 < (e - s) / s := div_pos hnum hspos
        linarith

/-- Witness for C1 at start rent 100, end rent 110: the change is +10%,
positive because rent increased. -/
theorem getPercentChange_spec_witness :
    getPercentChange (some 100) (some 110) = some 10 ∧ (0 < (10 : ℚ) ↔ (100 : ℚ) < 110) := by
  have h := (getPercentChange_spec (some 100) (some 110)).2.1 100 110 rfl rfl (by norm_num)
  have h10 : ((110 : ℚ) - 100) / 100 * 100 = 10 := by norm_num
  have hpos := (getPercentChange_spec (some 100) (some 110)).2.2 100 110 10 rfl rfl
    (by norm_num) (by rw [h, h10])
  exact ⟨by rw [h, h10], hpos⟩

/-! ### C6: color buckets -/

/-- Claim C6: `getColor` returns the fixed no-data color on an absent rent;
otherwise the color at the position of the first breakpoint strictly greater
than the rent, the last palette color when the rent is at least 5000, and the
boundary value 1500 falls into the upper bucket (the second color). -/
theorem getColor_spec :
    getColor none = "#cccccc" ∧
    (∀ (r : ℚ) (i : ℕ), i < colorScaleBreaks.length →
      (∀ j, j < i → ((colorScaleBreaks.getD j 0 : ℤ) : ℚ) ≤ r) →
      r < ((colorScaleBreaks.getD i 0 : ℤ) : ℚ) →
      getColor (some r) = colorScaleColors.getD i "") ∧
    (∀ r : ℚ, (5000 : ℚ) ≤ r → getColor (some r) = colorScaleColors.getLastD "") ∧
    getColor (some 1500) = colorScaleColors.getD 1 "" := by
  refine ⟨rfl, ?_, ?_, ?_⟩
  · intro r i hi hlow hupp
    have hlen : colorScaleBreaks.length = 8 := rfl
    rw [hlen] at hi
    interval_cases i
    · norm_num [colorScaleBreaks, List.getD_cons_zero, List.getD_cons_succ] at hupp
      rw [getColor_some_eq]
      simp only [colorScaleColors, List.getD_cons_zero, List.getD_cons_succ]
      split_ifs <;> first | rfl | (exfalso; linarith)
    · have hb := hlow 0 (by norm_num)
      norm_num [colorScaleBreaks, List.getD_cons_zero, List.getD_cons_succ] at hb hupp
      rw [getColor_some_eq]
      simp only [colorScaleColors, List.getD_cons_zero, List.getD_cons_succ]
      split_ifs <;> first | rfl | (exfalso; linarith)
    · have hb := hlow 1 (by norm_num)
      norm_num [colorScaleBreaks, List.getD_cons_zero, List.getD_cons_succ] at hb hupp
      rw [getColor_some_eq]
      simp only [colorScaleColors, List.getD_cons_zero, List.getD_cons_succ]
      split_ifs <;> first | rfl | (exfalso; linarith)
    · have hb := hlow 2 (by norm_num)
      norm_num [colorScaleBreaks, List.getD_cons_zero, List.getD_cons_succ] at hb hupp
      rw [getColor_some_eq]
      simp only [colorScaleColors, List.getD_cons_zero, List.getD_cons_succ]
      split_ifs <;> first | rfl | (exfalso; linarith)
    · have hb := hlow 3 (by norm_num)
      norm_num [colorScaleBreaks, List.getD_cons_zero, List.getD_cons_succ] at hb hupp
      rw [getColor_some_eq]
      simp only [colorScaleColors, List.getD_cons_zero, List.getD_cons_succ]
      split_ifs <;> first | rfl | (exfalso; linarith)
    · have hb := hlow 4 (by norm_num)
      norm_num [colorScaleBreaks, List.getD_cons_zero, List.getD_cons_succ] at hb hupp
      rw [getColor_some_eq]
      simp only [colorScaleColors, List.getD_cons_zero, List.getD_cons_succ]
      split_ifs <;> first | rfl | (exfalso; linarith)
    · have hb := hlow 5 (by norm_num)
      norm_num [colorScaleBreaks, List.getD_cons_zero, List.getD_cons_succ] at hb hupp
      rw [getColor_some_eq]
      simp only [colorScaleColors, List.getD_cons_zero, List.getD_cons_succ]
      split_ifs <;> first | rfl | (exfalso; linarith)
    · have hb := hlow 6 (by norm_num)
      norm_num [colorScaleBreaks, List.getD_cons_zero, List.getD_cons_succ] at hb hupp
      rw [getColor_some_eq]
      simp only [colorScaleColors, List.getD_cons_zero, List.getD_cons_succ]
      split_ifs <;> first | rfl | (exfalso; linarith)
  · intro r hr
    rw [getColor_some_eq]
    have h1 : ¬ r < 1500 := by linarith
    have h2 : ¬ r < 2000 := by linarith
    have h3 : ¬ r < 2500 := by linarith
    have h4 : ¬ r < 3000 := by linarith
    have h5 : ¬ r < 3500 := by linarith
    have h6 : ¬ r < 4000 := by linarith
    have h7 : ¬ r < 4500 := by linarith
    simp [h1, h2, h3, h4, h5, h6, h7, colorScaleColors]
  · rw [getColor_some_eq]
    norm_num [colorScaleColors]

/-- Witness for C6: a rent of 6000 is at least 5000 and gets the last
palette color. -/
theorem getColor_spec_witness :
    getColor (some 6000) = colorScaleColors.getLastD "" :=
  getColor_spec.2.2.1 6000 (by norm_num)

/-! ### C9: formatting -/

/-- Claim C9: `formatRent` returns `"No data"` on an absent rent and otherwise
the value rounded to the nearest integer as currency with thousands
separators; `formatPercentChange` returns `"N/A"` on an absent value and
otherwise one decimal place with an explicit `+` sign for non-negative
values. -/
theorem format_spec :
    formatRent none = "No data" ∧
    formatRent (some (2999.6 : ℚ)) = "$3,000" ∧
    formatPercentChange none = "N/A" ∧
    formatPercentChange (some 5) = "+5.0%" ∧
    formatPercentChange (some (-5)) = "-5.0%" ∧
    (∀ p : ℚ, 0 ≤ p → ∃ rest : String, formatPercentChange (some p) = "+" ++ rest) := by
  have hround : jsRound (2999.6 : ℚ) = 3000 := by rw [jsRound]; norm_num
  have hfix5 : toFixed1 (5 : ℚ) = "5.0" := by
    rw [toFixed1]
    norm_num
    decide
  have hfixm5 : toFixed1 (-5 : ℚ) = "-5.0" := by
    rw [toFixed1]
    norm_num
    decide
  refine ⟨rfl, ?_, rfl, ?_, ?_, ?_⟩
  · show "$" ++ toLocaleString (jsRound (2999.6 : ℚ)) = "$3,000"
    rw [hround]
    decide
  · show (if (0 : ℚ) ≤ 5 then "+" else "") ++ toFixed1 (5 : ℚ) ++ "%" = "+5.0%"
    rw [hfix5, if_pos (by norm_num)]
    decide
  · show (if (0 : ℚ) ≤ -5 then "+" else "") ++ toFixed1 (-5 : ℚ) ++ "%" = "-5.0%"
    rw [hfixm5, if_neg (by norm_num)]
    decide
  · intro p hp
    refine ⟨toFixed1 p ++ "%", ?_⟩
    show (if (0 : ℚ) ≤ p then "+" else "") ++ toFixed1 p ++ "%" = "+" ++ (toFixed1 p ++ "%")
    rw [if_pos hp, String.append_assoc]

/-- Witness for C9 at the non-negative value 12.3: the formatted string
carries an explicit plus sign. -/
theorem format_spec_witness :
    ∃ rest : String, formatPercentChange (some (12.3 : ℚ)) = "+" ++ rest :=
  format_spec.2.2.2.2.2 (12.3 : ℚ) (by norm_num)

/-! ### C4: slider clamping -/

/-- An eight-month date axis with selection `(3, 7)`, used to probe the
slider handlers. -/
def sliderProbeStore : DataStore :=
  ⟨none,
   ["2015-01", "2015-02", "2015-03", "2015-04", "2015-05", "2015-06", "2015-07", "2015-08"],
   3, 7⟩

/-- Counterexample to C4: the end-slider handler does not clamp its input
into `[0, len-1]`.  From selection `(3, 7)` over 8 dates, an input of 100
leaves `endDateIndex = 100`, outside `[0, 7]`. -/
theorem sliderClamp_counterexample :
    (handleEndSliderInput sliderProbeStore 100).endDateIndex = 100 ∧
    ¬ (handleEndSliderInput sliderProbeStore 100).endDateIndex ≤
        (sliderProbeStore.availableDates.length : ℤ) - 1 := by
  constructor
  · rfl
  · decide

/-- Claim C4 as amended: the handlers only enforce the cross-bound clamp, not
the range clamp.  `startIndex ≤ endIndex` survives every integer input; an
input already inside `[0, len-1]` keeps both bounds inside `[0, len-1]`; and a
moved bound that would cross the other leaves both equal to the other
(smaller) bound. -/
theorem sliderClamp_amended (s : DataStore) (i : ℤ)
    (hinv : s.startDateIndex ≤ s.endDateIndex) :
    ((handleStartSliderInput s i).startDateIndex ≤ (handleStartSliderInput s i).endDateIndex) ∧
    ((handleEndSliderInput s i).startDateIndex ≤ (handleEndSliderInput s i).endDateIndex) ∧
    (0 ≤ i → i ≤ (s.availableDates.length : ℤ) - 1 →
      0 ≤ s.startDateIndex → s.endDateIndex ≤ (s.availableDates.length : ℤ) - 1 →
      0 ≤ (handleStartSliderInput s i).startDateIndex ∧
      (handleStartSliderInput s i).endDateIndex ≤ (s.availableDates.length : ℤ) - 1 ∧
      0 ≤ (handleEndSliderInput s i).startDateIndex ∧
      (handleEndSliderInput s i).endDateIndex ≤ (s.availableDates.length : ℤ) - 1) ∧
    (s.endDateIndex < i →
      (handleStartSliderInput s i).startDateIndex = s.endDateIndex ∧
      (handleStartSliderInput s i).endDateIndex = s.endDateIndex) ∧
    (i < s.startDateIndex →
      (handleEndSliderInput s i).endDateIndex = s.startDateIndex ∧
      (handleEndSliderInput s i).startDateIndex = s.startDateIndex) := by
  simp only [handleStartSliderInput, handleEndSliderInput]
  refine ⟨?_, ?_, ?_, ?_, ?_⟩
  · first | trivial | omega | (split_ifs <;> omega)
  · first | trivial | omega | (split_ifs <;> omega)
  · intro h1 h2 h3 h4
    refine ⟨?_, ?_, ?_, ?_⟩ <;> first | trivial | omega | (split_ifs <;> omega)
  · intro h
    constructor <;> first | trivial | omega | (split_ifs <;> omega)
  · intro h
    constructor <;> first | trivial | omega | (split_ifs <;> omega)

/-- Witness for C4 (amended): from selection `(3, 7)`, a start input of 9
crosses the end bound and both bounds end up at 7. -/
theorem sliderClamp_amended_witness :
    (handleStartSliderInput sliderProbeStore 9).startDateIndex = 7 ∧
    (handleStartSliderInput sliderProbeStore 9).endDateIndex = 7 :=
  (sliderClamp_amended sliderProbeStore 9 (by decide)).2.2.2.1 (by decide)

/-! ### C5: a stored rent of exactly 0 -/

/-- A loaded table in which ZIP 10001 stores the rent value 0 for the single
available month. -/
def zeroRentStore : DataStore :=
  ⟨some [("10001", [("2015-01", 0)])], ["2015-01"], 0, 0⟩

/-- Counterexample to C5: for a ZIP and date present in the table with stored
rent exactly 0, `getStartRentForZip` returns `none` (the `|| null` idiom
treats 0 as falsy), not the value 0; the color path therefore shows the
no-data color and the format path shows "No data". -/
theorem zeroRent_counterexample :
    getStartRentForZip zeroRentStore "10001" ≠ some 0 ∧
    getStartRentForZip zeroRentStore "10001" = none ∧
    getColor (getStartRentForZip zeroRentStore "10001") = "#cccccc" ∧
    formatRent (getStartRentForZip zeroRentStore "10001") = "No data" := by
  refine ⟨?_, rfl, rfl, rfl⟩
  decide

/-- Claim C5 as amended: a stored rent value of exactly 0 is treated as
absent already by the rent lookups, so the color and format paths receive
`none` (no-data color, "No data") and the value 0 never reaches the
percent-change computation through the lookups; the zero-start-rent rule in
`getPercentChange` is an independent, additional guard. -/
theorem zeroRent_amended (s : DataStore) (t : RentTable) (zs : ZipSeries)
    (zipcode : String) (h : s.timeSeries = some t) (hz : t.lookup zipcode = some zs) :
    (zs.lookup (getStartDate s) = some 0 →
      getStartRentForZip s zipcode = none ∧
      getColor (getStartRentForZip s zipcode) = "#cccccc" ∧
      formatRent (getStartRentForZip s zipcode) = "No data") ∧
    (zs.lookup (getEndDate s) = some 0 →
      getEndRentForZip s zipcode = none ∧
      getColor (getEndRentForZip s zipcode) = "#cccccc" ∧
      formatRent (getEndRentForZip s zipcode) = "No data") := by
  constructor
  · intro hv
    have hnone : getStartRentForZip s zipcode = none := by
      rw [getStartRentForZip, h]
      simp [hz, hv, orNull]
    exact ⟨hnone, by rw [hnone]; rfl, by rw [hnone]; rfl⟩
  · intro hv
    have hnone : getEndRentForZip s zipcode = none := by
      rw [getEndRentForZip, h]
      simp [hz, hv, orNull]
    exact ⟨hnone, by rw [hnone]; rfl, by rw [hnone]; rfl⟩

/-- Witness for C5 (amended) at the concrete one-ZIP table storing 0. -/
theorem zeroRent_amended_witness :
    getStartRentForZip zeroRentStore "10001" = none ∧
    getColor (getStartRentForZip zeroRentStore "10001") = "#cccccc" ∧
    formatRent (getStartRentForZip zeroRentStore "10001") = "No data" :=
  (zeroRent_amended zeroRentStore [("10001", [("2015-01", 0)])] [("2015-01", 0)]
    "10001" rfl (by decide)).1 (by decide)

/-! ### C7: legend entries -/

/-- Counterexample to C7: the next-to-last legend label (the one for the last
palette color) is `"$4,500+"`, not `"$5,000+"` — the loop uses
`breaks[i - 1]` at the last color, and `breaks[6] = 4500`. -/
theorem legendItems_counterexample :
    (getLegendItems.getD 7 ⟨"", ""⟩).label = "$4,500+" ∧
    (getLegendItems.getD 7 ⟨"", ""⟩).label ≠ "$5,000+" := by
  constructor
  · rfl
  · decide

/-- Claim C7 as amended: `getLegendItems` returns exactly palette-length + 1
entries — the ordered (color, label) pairs with labels "< $1,500",
"$1,500 - $2,000", ..., ending in "$4,500+" (thresholds strictly
increasing), followed by one trailing "No data" entry. -/
theorem legendItems_amended :
    getLegendItems =
      [⟨"#f7fbff", "< $1,500"⟩,
       ⟨"#deebf7", "$1,500 - $2,000"⟩,
       ⟨"#c6dbef", "$2,000 - $2,500"⟩,
       ⟨"#9ecae1", "$2,500 - $3,000"⟩,
       ⟨"#6baed6", "$3,000 - $3,500"⟩,
       ⟨"#4292c6", "$3,500 - $4,000"⟩,
       ⟨"#2171b5", "$4,000 - $4,500"⟩,
       ⟨"#084594", "$4,500+"⟩,
       ⟨"#cccccc", "No data"⟩] ∧
    getLegendItems.length = colorScaleColors.length + 1 := ⟨rfl, rfl⟩

/-! ### C8: loading the time series -/

/-- Claim C8: on a well-formed payload `loadTimeSeries` returns success, sets
the date axis to the payload's `dates` array verbatim (no re-sorting) and the
selection to the full range `(0, len-1)`; an unreachable or malformed payload
yields the failure indicator `false` instead of an exception. -/
theorem loadTimeSeries_spec (response : Option TimeSeriesPayload) (s : DataStore) :
    (response = none → loadTimeSeries response s = (false, s)) ∧
    (∀ payload, response = some payload → payload.dates = none →
      (loadTimeSeries response s).1 = false) ∧
    (∀ payload ds, response = some payload → payload.dates = some ds →
      loadTimeSeries response s =
        (true, ⟨payload.data, ds, 0, (ds.length : ℤ) - 1⟩)) := by
  refine ⟨?_, ?_, ?_⟩
  · rintro rfl
    rfl
  · rintro payload rfl hdates
    simp [loadTimeSeries, hdates]
  · rintro payload ds rfl hdates
    simp [loadTimeSeries, hdates]

/-- Witness for C8: a payload whose `dates` array is deliberately not in
chronological order is stored verbatim, with the selection spanning the full
range `(0, 1)`. -/
theorem loadTimeSeries_spec_witness :
    loadTimeSeries (some ⟨some [], some ["2015-02", "2015-01"]⟩) ⟨none, [], 0, 0⟩ =
      (true, ⟨some [], ["2015-02", "2015-01"], 0, 1⟩) := by
  have h := (loadTimeSeries_spec (some ⟨some [], some ["2015-02", "2015-01"]⟩)
    ⟨none, [], 0, 0⟩).2.2 ⟨some [], some ["2015-02", "2015-01"]⟩
    ["2015-02", "2015-01"] rfl rfl
  simpa using h

/-! ### Aggregate machinery shared by C2 and C10 -/

/-- The start/end rent pair of a ZIP when both lookups return a value. -/
def qualPair (s : DataStore) (z : String) : Option (ℚ × ℚ) :=
  match getStartRentForZip s z, getEndRentForZip s z with
  | some a, some b => some (a, b)
  | _, _ => none

/-- The start/end rent pairs of exactly those ZIPs whose start and end rents
are both present, in table iteration order. -/
def qualifyingPairs (s : DataStore) (t : RentTable) : List (ℚ × ℚ) :=
  (t.map Prod.fst).filterMap (qualPair s)

theorem aggStep_eq (s : DataStore) (acc : ℚ × ℚ × ℕ) (z : String) :
    aggStep s acc z =
      match qualPair s z with
      | some pr => (acc.1 + pr.1, acc.2.1 + pr.2, acc.2.2 + 1)
      | none => acc := by
  rw [aggStep, qualPair]
  cases getStartRentForZip s z <;> cases getEndRentForZip s z <;> rfl

/-- The accumulation loop of `getNYCAggregateData` computes the sums and the
count over the qualifying ZIPs. -/
theorem foldl_aggStep (s : DataStore) :
    ∀ (zips : List String) (a b : ℚ) (c : ℕ),
      zips.foldl (aggStep s) (a, b, c) =
        (a + ((zips.filterMap (qualPair s)).map Prod.fst).sum,
         b + ((zips.filterMap (qualPair s)).map Prod.snd).sum,
         c + (zips.filterMap (qualPair s)).length) := by
  intro zips
  induction zips with
  | nil => intro a b c; simp
  | cons z rest ih =>
      intro a b c
      rw [List.foldl_cons, aggStep_eq, List.filterMap_cons]
      cases hq : qualPair s z with
      | none => simpa using ih a b c
      | some pr =>
          simp only [List.map_cons, List.sum_cons, List.length_cons]
          rw [ih]
          refine congrArg₂ _ (by ring) (congrArg₂ _ (by ring) (by omega))

/-- `getNYCAggregateData` on a loaded table, rewritten through the list of
qualifying start/end pairs. -/
theorem getNYCAggregateData_eq (s : DataStore) (t : RentTable)
    (h : s.timeSeries = some t) :
    getNYCAggregateData s =
      if (qualifyingPairs s t).length = 0 then ⟨none, none, none, some 0⟩
      else
        ⟨some (((qualifyingPairs s t).map Prod.fst).sum / ((qualifyingPairs s t).length : ℚ)),
         some (((qualifyingPairs s t).map Prod.snd).sum / ((qualifyingPairs s t).length : ℚ)),
         getPercentChange
           (some (((qualifyingPairs s t).map Prod.fst).sum / ((qualifyingPairs s t).length : ℚ)))
           (some (((qualifyingPairs s t).map Prod.snd).sum / ((qualifyingPairs s t).length : ℚ))),
         some (qualifyingPairs s t).length⟩ := by
  rw [getNYCAggregateData, h]
  simp only [foldl_aggStep s (t.map Prod.fst) 0 0 0, zero_add, Nat.zero_add]
  rfl

/-! ### C2: citywide aggregate -/

/-- Claim C2: `getNYCAggregateData` sums start and end rents over exactly the
ZIPs whose start and end rents are both present, divides each sum by the
count of such ZIPs, and computes the percent change on the two averages;
with no qualifying ZIP it returns count 0 and absent start rent, end rent and
percent change. -/
theorem cityAggregate_spec (s : DataStore) (t : RentTable)
    (h : s.timeSeries = some t) :
    (qualifyingPairs s t = [] →
      getNYCAggregateData s = ⟨none, none, none, some 0⟩) ∧
    (qualifyingPairs s t ≠ [] →
      getNYCAggregateData s =
        ⟨some (((qualifyingPairs s t).map Prod.fst).sum / ((qualifyingPairs s t).length : ℚ)),
         some (((qualifyingPairs s t).map Prod.snd).sum / ((qualifyingPairs s t).length : ℚ)),
         getPercentChange
           (some (((qualifyingPairs s t).map Prod.fst).sum /
             ((qualifyingPairs s t).length : ℚ)))
           (some (((qualifyingPairs s t).map Prod.snd).sum /
             ((qualifyingPairs s t).length : ℚ))),
         some (qualifyingPairs s t).length⟩) := by
  constructor
  · intro hq
    rw [getNYCAggregateData_eq s t h, if_pos (by simp [hq])]
  · intro hq
    rw [getNYCAggregateData_eq s t h, if_neg (by simpa using hq)]

/-- Witness for C2 with an empty loaded table: no ZIP qualifies and the
zero-count sentinel is returned. -/
theorem cityAggregate_spec_witness :
    getNYCAggregateData ⟨some [], ["2015-01"], 0, 0⟩ = ⟨none, none, none, some 0⟩ :=
  (cityAggregate_spec ⟨some [], ["2015-01"], 0, 0⟩ [] rfl).1 rfl

/-! ### C10: a positive count gives a defined percent change -/

/-- A counted start rent came through `orNull`, so it is a stored, non-zero
value; with all stored rents non-negative it is strictly positive. -/
theorem startRent_pos (s : DataStore) (t : RentTable) (h : s.timeSeries = some t)
    (hnn : ∀ e ∈ t, ∀ d ∈ e.2, (0 : ℚ) ≤ d.2)
    (z : String) (a : ℚ) (ha : getStartRentForZip s z = some a) : 0 < a := by
  simp only [getStartRentForZip, h] at ha
  cases hz : t.lookup z with
  | none => simp only [hz] at ha; cases ha
  | some zs =>
      simp only [hz] at ha
      cases hl : zs.lookup (getStartDate s) with
      | none => simp only [hl, orNull] at ha; cases ha
      | some v =>
          simp only [hl, orNull] at ha
          by_cases hv : v = 0
          · rw [if_pos hv] at ha; cases ha
          · rw [if_neg hv] at ha
            obtain rfl : v = a := by cases ha; rfl
            have hmem1 : (z, zs) ∈ t := lookup_mem hz
            have hmem2 : (getStartDate s, v) ∈ zs := lookup_mem hl
            exact lt_of_le_of_ne (hnn _ hmem1 _ hmem2) (Ne.symm hv)

/-- Claim C10: on a loaded table whose stored rents are all non-negative,
whenever `getNYCAggregateData` reports a count greater than 0 its percent
change is defined: every counted start rent is strictly positive (a stored 0
never passes the lookup), so the averaged start rent is nonzero and the
absent/zero-start branch of `getPercentChange` is unreachable. -/
theorem cityAggregate_pos_spec (s : DataStore) (t : RentTable)
    (h : s.timeSeries = some t)
    (hnn : ∀ e ∈ t, ∀ d ∈ e.2, (0 : ℚ) ≤ d.2)
    (n : ℕ) (hc : (getNYCAggregateData s).zipCount = some n) (hn : 0 < n) :
    (getNYCAggregateData s).percentChange.isSome := by
  rw [getNYCAggregateData_eq s t h] at hc ⊢
  by_cases hq : (qualifyingPairs s t).length = 0
  · rw [if_pos hq] at hc
    obtain rfl : (0 : ℕ) = n := by cases hc; rfl
    exact absurd hn (lt_irrefl 0)
  · rw [if_neg hq] at hc ⊢
    have hlenpos : 0 < (qualifyingPairs s t).length := Nat.pos_of_ne_zero hq
    have hpos : ∀ x ∈ (qualifyingPairs s t).map Prod.fst, 0 < x := by
      intro x hx
      obtain ⟨⟨a, b⟩, hab, rfl⟩ := List.mem_map.1 hx
      obtain ⟨z, _, hz⟩ := List.mem_filterMap.1 hab
      rw [qualPair] at hz
      cases hsa : getStartRentForZip s z with
      | none => simp only [hsa] at hz; cases getEndRentForZip s z <;> cases hz
      | some sa =>
          simp only [hsa] at hz
          cases hsb : getEndRentForZip s z with
          | none => simp only [hsb] at hz; cases hz
          | some sb =>
              simp only [hsb, Option.some.injEq, Prod.mk.injEq] at hz
              exact hz.1 ▸ startRent_pos s t h hnn z sa hsa
    have hne : (qualifyingPairs s t).map Prod.fst ≠ [] := by
      intro hcon
      rw [← List.length_eq_zero, List.length_map] at hcon
      exact hq hcon
    have hsum : 0 < ((qualifyingPairs s t).map Prod.fst).sum :=
      List.sum_pos _ hpos hne
    have havg : 0 < ((qualifyingPairs s t).map Prod.fst).sum /
        ((qualifyingPairs s t).length : ℚ) :=
      div_pos hsum (by exact_mod_cast hlenpos)
    rw [getPercentChange, if_neg (ne_of_gt havg)]
    rfl

/-- A loaded table with one ZIP and rents 1000 then 1100, selection spanning
both months. -/
def roundTripStore : DataStore :=
  ⟨some [("10001", [("2015-01", 1000), ("2015-02", 1100)])],
   ["2015-01", "2015-02"], 0, 1⟩

/-- Witness for C10 at a one-ZIP table with positive rents: the count is 1
and the percent change is defined. -/
theorem cityAggregate_pos_spec_witness :
    (getNYCAggregateData roundTripStore).percentChange.isSome :=
  cityAggregate_pos_spec roundTripStore
    [("10001", [("2015-01", 1000), ("2015-02", 1100)])] rfl (by decide) 1
    (by decide) (by decide)

/-! ### C3: top-10 ranking -/

theorem changeDesc_trans :
    ∀ a b c : ChangeEntry, changeDesc a b → changeDesc b c → changeDesc a c := by
  intro a b c hab hbc
  rw [changeDesc] at hab hbc ⊢
  exact decide_eq_true (le_trans (of_decide_eq_true hbc) (of_decide_eq_true hab))

theorem changeDesc_total : ∀ a b : ChangeEntry, changeDesc a b || changeDesc b a := by
  intro a b
  simp only [changeDesc, Bool.or_eq_true, decide_eq_true_eq]
  exact le_total b.absChange a.absChange

/-- Claim C3: `getTop10ByChange` has at most 10 entries, contains only ZIPs
whose percent change is defined (each entry carrying that percent change and
its absolute value), is sorted descending by absolute percent change, and the
stable sort keeps tied entries in their original iteration order (a tied pair
that is a sublist of the unsorted `changes` array remains a sublist of the
sorted array, of which the result is the 10-element prefix). -/
theorem top10_spec (s : DataStore) (t : RentTable) (h : s.timeSeries = some t) :
    (getTop10ByChange s).length ≤ 10 ∧
    (∀ e ∈ getTop10ByChange s,
      getPercentChange (getStartRentForZip s e.zipcode) (getEndRentForZip s e.zipcode) =
        some e.percentChange ∧ e.absChange = |e.percentChange|) ∧
    (getTop10ByChange s).Pairwise (fun a b => b.absChange ≤ a.absChange) ∧
    (∀ a b : ChangeEntry, a.absChange = b.absChange →
      List.Sublist [a, b] (changesFor s t) →
      List.Sublist [a, b] ((changesFor s t).mergeSort changeDesc)) ∧
    getTop10ByChange s = ((changesFor s t).mergeSort changeDesc).take 10 := by
  have hdef : getTop10ByChange s = ((changesFor s t).mergeSort changeDesc).take 10 := by
    rw [getTop10ByChange, h]
  refine ⟨?_, ?_, ?_, ?_, hdef⟩
  · rw [hdef, List.length_take]
    exact min_le_left _ _
  · intro e he
    rw [hdef] at he
    have h1 : e ∈ (changesFor s t).mergeSort changeDesc := List.mem_of_mem_take he
    rw [List.mem_mergeSort, changesFor] at h1
    obtain ⟨z, _, hfz⟩ := List.mem_filterMap.1 h1
    cases hpc : getPercentChange (getStartRentForZip s z) (getEndRentForZip s z) with
    | none => rw [hpc] at hfz; cases hfz
    | some pc =>
        rw [hpc] at hfz
        obtain rfl : ChangeEntry.mk z pc |pc| = e := by cases hfz; rfl
        exact ⟨hpc, rfl⟩
  · have hs := List.sorted_mergeSort changeDesc_trans changeDesc_total (changesFor s t)
    rw [hdef]
    exact (hs.sublist (List.take_sublist _ _)).imp fun hab => by
      rw [changeDesc] at hab
      exact of_decide_eq_true hab
  · intro a b heq hsub
    refine List.pair_sublist_mergeSort changeDesc_trans changeDesc_total ?_ hsub
    rw [changeDesc]
    exact decide_eq_true (le_of_eq heq.symm)

/-- A loaded table with two ZIPs whose percent changes are +10% and -10%:
equal absolute changes, a tie for the stable sort. -/
def tieStore : DataStore :=
  ⟨some [("11111", [("2015-01", 1000), ("2015-02", 1100)]),
         ("22222", [("2015-01", 1000), ("2015-02", 900)])],
   ["2015-01", "2015-02"], 0, 1⟩

/-- The table stored in `tieStore`. -/
def tieTable : RentTable :=
  [("11111", [("2015-01", 1000), ("2015-02", 1100)]),
   ("22222", [("2015-01", 1000), ("2015-02", 900)])]

/-- Witness for C3: in the tied table the +10% ZIP precedes the -10% ZIP in
iteration order, and the tied pair stays in that order in the sorted array. -/
theorem top10_spec_witness :
    List.Sublist [ChangeEntry.mk "11111" 10 10, ChangeEntry.mk "22222" (-10) 10]
      ((changesFor tieStore tieTable).mergeSort changeDesc) := by
  have hs1 : getStartRentForZip tieStore "11111" = some 1000 := by decide
  have he1 : getEndRentForZip tieStore "11111" = some 1100 := by decide
  have hs2 : getStartRentForZip tieStore "22222" = some 1000 := by decide
  have he2 : getEndRentForZip tieStore "22222" = some 900 := by decide
  have hpc1 : getPercentChange (some 1000) (some 1100) = some 10 := by
    simp only [getPercentChange]
    norm_num
  have hpc2 : getPercentChange (some 1000) (some 900) = some (-10) := by
    simp only [getPercentChange]
    norm_num
  have hch : changesFor tieStore tieTable =
      [ChangeEntry.mk "11111" 10 10, ChangeEntry.mk "22222" (-10) 10] := by
    rw [changesFor]
    simp only [tieTable, List.map_cons, List.map_nil, List.filterMap_cons,
      List.filterMap_nil, hs1, he1, hs2, he2, hpc1, hpc2]
    norm_num
  refine (top10_spec tieStore tieTable rfl).2.2.2.1
    (ChangeEntry.mk "11111" 10 10) (ChangeEntry.mk "22222" (-10) 10) rfl ?_
  rw [hch]

end NYCRentMap
